import Mathlib

/-!
Shallow embedding of the `CorbaAccess` discovery client
(src/corba_access.cc, src/corba_access.hh).

The CORBA runtime (omniORB) is external to the repository, so every call
into it (ORB_init, resolve_initial_references, _narrow, resolve, list,
next_n, getName, destroy) is driven by an explicit environment record.
Object references are modelled as `Option Nat`: `none` is a nil reference,
`some r` a concrete reference.  C++ exceptions are modelled by `Except`
with an explicit exception datatype that separates the CORBA exception
hierarchy (caught by `catch (CORBA::Exception&)`) from `IllegalServer`
(which derives from `std::exception`, NOT from `CORBA::Exception`) and
from any other C++ exception (caught only by `catch (...)`).
Diagnostic printing (cout/cerr) is not modelled.
-/

namespace CorbaAccess

/-- Exceptions of the CORBA hierarchy, as caught by `catch (CORBA::Exception&)`.
`notFound` is `CosNaming::NamingContext::NotFound` (a `CORBA::UserException`),
which `knownTasks` catches specifically; `system nm` is any other CORBA
exception (system exceptions such as INV_OBJREF, TRANSIENT, user exceptions
such as CannotProceed), identified by its `_name()`. -/
inductive CorbaExc where
  | notFound
  | system (nm : String)
deriving DecidableEq

/-- A C++ exception as seen by the catch clauses of corba_access.cc:
either a CORBA exception, the repository's own `IllegalServer`
(a `std::exception`, hence NOT caught by `catch (CORBA::Exception&)`),
or any other C++ exception. -/
inductive Exc where
  | corba (e : CorbaExc)
  | illegalServer (reason : String)
  | other (tag : String)
deriving DecidableEq

/-- The reason string installed by the `IllegalServer` default constructor. -/
def illegalServerReason : String := "This server does not exist or has the wrong type."

/-- The two static members of class CorbaAccess:
`CORBA::ORB_var orb` and `CosNaming::NamingContext_var rootContext`.
`none` models a nil reference (their initial value). -/
structure OrbState where
  orb : Option Nat
  rootContext : Option Nat
deriving DecidableEq

/-- Environment for `InitOrb`: the outcomes of the three external calls it
makes.  `ORB_init` and `resolve_initial_references` raise only CORBA
exceptions; `ORB_init` returns a non-nil ORB reference when it returns at
all.  `narrowNamingContext` models `CosNaming::NamingContext::_narrow` on a
non-nil object: `some c` when the object really is a naming context,
`none` (nil) when it has the wrong type; `_narrow` of a nil reference is
nil, which the embedding encodes with `Option.bind`. -/
structure InitEnv where
  orbInit : Except CorbaExc Nat
  resolveNameService : Except CorbaExc (Option Nat)
  narrowNamingContext : Nat → Option Nat

/-- `CorbaAccess::InitOrb`.  Mirrors the source line by line:
if `orb` is already non-nil, return false at once; otherwise run the try
block (assign `orb`, resolve "NameService", assign
`rootContext = _narrow(rootObj)`, then test `is_nil(rootObj)` — note: the
source tests `rootObj`, not the narrowed `rootContext` — and throw
`IllegalServer` on nil, else return true).  The catch clause catches ONLY
`CORBA::Exception`, so an `IllegalServer` thrown inside the try block
propagates out of `InitOrb`. -/
def InitOrb (env : InitEnv) (s : OrbState) : Except Exc Bool × OrbState :=
  if s.orb.isSome then
    (.ok false, s)
  else
    match env.orbInit with
    | .error _ => (.ok false, s)
    | .ok orbRef =>
      let s1 : OrbState := { s with orb := some orbRef }
      match env.resolveNameService with
      | .error _ => (.ok false, s1)
      | .ok rootObj =>
        let s2 : OrbState := { s1 with rootContext := rootObj.bind env.narrowNamingContext }
        if rootObj.isNone then
          (.error (.illegalServer illegalServerReason), s2)
        else
          (.ok true, s2)

/-- Environment for `DestroyOrb`: outcomes of `rootContext->destroy()` and
`orb->destroy()` on non-nil references.  CORBA stub calls raise only CORBA
exceptions. -/
structure DestroyEnv where
  destroyContext : Nat → Except CorbaExc Unit
  destroyOrb : Nat → Except CorbaExc Unit

/-- Invoking a CORBA operation through a possibly-nil reference: omniORB
raises the INV_OBJREF system exception on a nil reference. -/
def nilGuard (r : Option Nat) (f : Nat → Except CorbaExc Unit) : Except CorbaExc Unit :=
  match r with
  | none => .error (.system "INV_OBJREF")
  | some x => f x

/-- The try block of `CorbaAccess::DestroyOrb`:
`rootContext->destroy(); orb->destroy();` in that order, each through a
possibly-nil reference. -/
def destroyBody (env : DestroyEnv) (s : OrbState) : Except CorbaExc Unit :=
  match nilGuard s.rootContext env.destroyContext with
  | .error e => .error e
  | .ok _ => nilGuard s.orb env.destroyOrb

/-- `CorbaAccess::DestroyOrb`.  Runs the try block and catches every
`CORBA::Exception` (logging it), so it always returns normally; the static
members are never reassigned. -/
def DestroyOrb (env : DestroyEnv) (s : OrbState) : Except Exc Unit × OrbState :=
  match destroyBody env s with
  | .error _ => (.ok (), s)
  | .ok _ => (.ok (), s)

/-- One binding of a naming context, as `knownTasks` reads it: the source
only uses `binding.binding_name[0].id` (bindings directly under
`ControlTasks` have one-component names), plus the binding kind from the
data model (object vs sub-context), which `knownTasks` never inspects. -/
structure Binding where
  firstId : String
  isContext : Bool
deriving DecidableEq

/-- Environment for `knownTasks`: the outcome of
`rootContext->resolve(["ControlTasks"])` on root reference `r` (possibly
raising `NotFound` or another CORBA exception), the `_narrow` of the
resolved object to `CosNaming::NamingContext`, and the paginated iterator
protocol: `pages` is the sequence of batches that successive
`binding_it->next_n(10, binding_list)` calls hand back before `next_n`
returns false.  The iterator protocol constrains each page to at most 10
bindings and `next_n` to return false exactly when no binding is left, so
a well-formed environment has nonempty pages of length at most 10; the
theorems take these as hypotheses. -/
structure ListEnv where
  resolveControlTasks : Nat → Except CorbaExc (Option Nat)
  narrowNamingContext : Nat → Option Nat
  pages : List (List Binding)

/-- The while loop of `knownTasks`:
`while (binding_it->next_n(10, binding_list)) for (i...) names.push_back(binding_list[i].binding_name[0].id)`.
Each iteration appends the first name component of every binding of the
current batch to the accumulated list. -/
def bindingLoop : List (List Binding) → List String → List String
  | [], names => names
  | page :: rest, names => bindingLoop rest (names ++ page.map Binding.firstId)

/-- `CorbaAccess::knownTasks`.  Resolves `["ControlTasks"]` against
`rootContext` (nil root raises INV_OBJREF), narrows the result to a naming
context (calling `list` through a nil context raises INV_OBJREF), then
drains the binding iterator.  The try block catches ONLY
`CosNaming::NamingContext::NotFound`, returning the names collected so far
(none), i.e. the empty list; every other CORBA exception propagates. -/
def knownTasks (env : ListEnv) (root : Option Nat) : Except Exc (List String) :=
  match root with
  | none => .error (.corba (.system "INV_OBJREF"))
  | some r =>
    match env.resolveControlTasks r with
    | .error .notFound => .ok []
    | .error e => .error (.corba e)
    | .ok ctObj =>
      match ctObj.bind env.narrowNamingContext with
      | none => .error (.corba (.system "INV_OBJREF"))
      | some _ => .ok (bindingLoop env.pages [])

/-- Environment for `findByName`: the outcome of
`rootContext->resolve(["ControlTasks", name])` on root reference `r`, the
`_narrow` of a non-nil resolved object to `RTT::Corba::ControlTask`
(`none` when the object has the wrong type), the outcome of
`mtask->getName()` on a task handle, and each task object's registered
identity (the name under which its server registered it, which a
successful remote `getName` reports).  Because `findByName` ends in
`catch (...)`, the two remote calls may raise an arbitrary C++ exception,
modelled by `Except Exc`. -/
structure FindEnv where
  resolveTask : Nat → String → Except Exc (Option Nat)
  narrowControlTask : Nat → Option Nat
  getName : Nat → Except Exc String
  identity : Nat → String

/-- The try block of `CorbaAccess::findByName`: resolve
`["ControlTasks", name]` (nil root raises INV_OBJREF), narrow to
`ControlTask`, throw `IllegalServer` if the narrowed handle is nil, call
`getName()` on it, and return the (non-nil) narrowed handle. -/
def findTryBody (env : FindEnv) (root : Option Nat) (name : String) :
    Except Exc (Option Nat) :=
  match root with
  | none => .error (.corba (.system "INV_OBJREF"))
  | some r =>
    match env.resolveTask r name with
    | .error e => .error e
    | .ok taskObj =>
      match taskObj.bind env.narrowControlTask with
      | none => .error (.illegalServer illegalServerReason)
      | some mtask =>
        match env.getName mtask with
        | .error e => .error e
        | .ok _ => .ok (some mtask)

/-- `CorbaAccess::findByName`.  Runs the try block; a
`catch (CORBA::Exception&)` clause converts any CORBA exception into a
fresh `IllegalServer`, and a final `catch (...)` clause re-raises every
other exception unchanged (this includes the `IllegalServer` thrown inside
the try block, which is not a CORBA exception and is rethrown as-is). -/
def findByName (env : FindEnv) (root : Option Nat) (name : String) :
    Except Exc (Option Nat) :=
  match findTryBody env root name with
  | .ok h => .ok h
  | .error (.corba _) => .error (.illegalServer illegalServerReason)
  | .error e => .error e

/-- The binding loop accumulates the first name component of every binding of
every page, in page order, after whatever was already accumulated. -/
theorem bindingLoop_eq (ps : List (List Binding)) (acc : List String) :
    bindingLoop ps acc = acc ++ ps.flatten.map Binding.firstId := by
  induction ps generalizing acc with
  | nil => simp [bindingLoop]
  | cons p rest ih => simp [bindingLoop, ih]

/-- The try block of findByName only returns a non-nil handle. -/
theorem findTryBody_ok_isSome (env : FindEnv) (root : Option Nat) (name : String)
    (h : Option Nat) (hh : findTryBody env root name = .ok h) : h.isSome = true := by
  unfold findTryBody at hh
  split at hh
  · simp at hh
  · split at hh
    · simp at hh
    · split at hh
      · simp at hh
      · split at hh
        · simp at hh
        · cases hh
          rfl

/-- C1: when the name does not resolve under ControlTasks (the resolve call
raises a CORBA exception, in particular NotFound) or it resolves but
narrowing to ControlTask yields nil, findByName raises IllegalServer with
the nonexistence-or-wrong-type reason string; and findByName never returns
a nil handle. -/
theorem findByName_failure_and_no_nil (env : FindEnv) (r : Nat) (name : String) :
    (∀ e, env.resolveTask r name = .error (.corba e) →
      findByName env (some r) name = .error (.illegalServer illegalServerReason)) ∧
    (∀ o, env.resolveTask r name = .ok o → o.bind env.narrowControlTask = none →
      findByName env (some r) name = .error (.illegalServer illegalServerReason)) ∧
    (∀ h, findByName env (some r) name = .ok h → h.isSome = true) := by
  refine ⟨?_, ?_, ?_⟩
  · intro e he
    simp [findByName, findTryBody, he]
  · intro o ho hn
    simp [findByName, findTryBody, ho, hn]
  · intro h hh
    unfold findByName at hh
    split at hh
    · cases hh
      exact findTryBody_ok_isSome env (some r) name _ (by assumption)
    · simp at hh
    · simp_all

/-- C1 witness: at a concrete environment, a CORBA NotFound on resolve and
a failed narrowing both produce IllegalServer, and a successful run returns
a non-nil handle. -/
theorem findByName_failure_and_no_nil_witness :
    findByName ⟨fun _ _ => .error (.corba .notFound), fun _ => none, fun _ => .ok "",
        fun _ => ""⟩ (some 0) "gamma" = .error (.illegalServer illegalServerReason) ∧
    findByName ⟨fun _ _ => .ok (some 3), fun _ => none, fun _ => .ok "",
        fun _ => ""⟩ (some 0) "x" = .error (.illegalServer illegalServerReason) ∧
    Option.isSome
      (some 4 : Option Nat) = true :=
  ⟨(findByName_failure_and_no_nil _ 0 "gamma").1 .notFound rfl,
   (findByName_failure_and_no_nil _ 0 "x").2.1 (some 3) rfl rfl,
   (findByName_failure_and_no_nil
      ⟨fun _ _ => .ok (some 3), fun _ => some 4, fun _ => .ok "alpha", fun _ => "alpha"⟩
      0 "alpha").2.2 (some 4) rfl⟩

/-- C2: when ControlTasks resolves and narrows to a naming context holding
bindings bs, knownTasks returns exactly the first name component of every
binding, one name per binding, whatever way the iterator splits the
bindings into pages of at most 10; when binding first components are
distinct (as names within one naming context are), each appears exactly
once in the result. -/
theorem knownTasks_pagination_complete (env : ListEnv) (r o c : Nat)
    (bs : List Binding)
    (hres : env.resolveControlTasks r = .ok (some o))
    (hnar : env.narrowNamingContext o = some c)
    (hjoin : env.pages.flatten = bs)
    (hpages : ∀ p ∈ env.pages, p ≠ [] ∧ p.length ≤ 10) :
    knownTasks env (some r) = .ok (bs.map Binding.firstId) ∧
    (bs.map Binding.firstId).length = bs.length ∧
    ((bs.map Binding.firstId).Nodup →
      ∀ b ∈ bs, (bs.map Binding.firstId).count b.firstId = 1) := by
  refine ⟨?_, by simp, ?_⟩
  · simp [knownTasks, hres, hnar, bindingLoop_eq, hjoin]
  · intro hnd b hb
    exact List.count_eq_one_of_mem hnd (List.mem_map_of_mem _ hb)

/-- C2 witness: three bindings paginated as a page of two then a page of
one are all returned, once each. -/
theorem knownTasks_pagination_complete_witness :
    knownTasks ⟨fun _ => .ok (some 1), fun _ => some 2,
      [[⟨"a", false⟩, ⟨"b", false⟩], [⟨"c", false⟩]]⟩ (some 0)
      = .ok ["a", "b", "c"] :=
  (knownTasks_pagination_complete ⟨fun _ => .ok (some 1), fun _ => some 2,
      [[⟨"a", false⟩, ⟨"b", false⟩], [⟨"c", false⟩]]⟩ 0 1 2
      [⟨"a", false⟩, ⟨"b", false⟩, ⟨"c", false⟩] rfl rfl rfl (by decide)).1

/-- C3: evaluation of the code at the claim's scenario.  With the ORB
starting and resolve_initial_references("NameService") returning a nil
reference, InitOrb does NOT return false: the IllegalServer it raises is a
std::exception, escapes the catch (CORBA::Exception&) clause, and
propagates to the caller, with the orb member left assigned. -/
theorem initOrb_nil_nameservice_raises :
    InitOrb ⟨.ok 0, .ok none, fun _ => none⟩ ⟨none, none⟩
      = (.error (.illegalServer illegalServerReason), ⟨some 0, none⟩) := rfl

/-- C4 counterexample: with the ORB starting and "NameService" resolving to
a non-nil object that fails to narrow to a naming context, InitOrb returns
true while rootContext stays nil — refuting both that true implies both
members initialized and that no reachable state has exactly one of them
initialized. -/
theorem initOrb_partial_state_counterexample :
    (InitOrb ⟨.ok 0, .ok (some 5), fun _ => none⟩ ⟨none, none⟩).1 = .ok true ∧
    (InitOrb ⟨.ok 0, .ok (some 5), fun _ => none⟩ ⟨none, none⟩).2.orb.isSome = true ∧
    (InitOrb ⟨.ok 0, .ok (some 5), fun _ => none⟩ ⟨none, none⟩).2.rootContext.isSome
      = false :=
  ⟨rfl, rfl, rfl⟩

/-- C4 (amended): if InitOrb returns true then the transport handle is
initialized and the NameService resolution produced a non-nil reference,
and rootContext holds exactly the result of narrowing that reference —
which is nil when the reference has the wrong type, so the no-partial-state
invariant does not hold in general. -/
theorem initOrb_true_characterization (env : InitEnv) (s s2 : OrbState)
    (h : InitOrb env s = (.ok true, s2)) :
    s2.orb.isSome = true ∧
    ∃ o, env.resolveNameService = .ok (some o) ∧
      s2.rootContext = env.narrowNamingContext o := by
  by_cases hs : s.orb.isSome
  · simp [InitOrb, hs] at h
  · cases hoi : env.orbInit with
    | error e => simp [InitOrb, hs, hoi] at h
    | ok orbRef =>
      cases hrs : env.resolveNameService with
      | error e => simp [InitOrb, hs, hoi, hrs] at h
      | ok rootObj =>
        cases rootObj with
        | none => simp [InitOrb, hs, hoi, hrs] at h
        | some o =>
          simp [InitOrb, hs, hoi, hrs] at h
          subst h
          exact ⟨rfl, o, rfl, rfl⟩

/-- C4 witness: a run in which narrowing succeeds, showing the amended
characterization at a concrete successful initialization. -/
theorem initOrb_true_characterization_witness :
    (⟨some 0, some 7⟩ : OrbState).orb.isSome = true ∧
    ∃ o, (⟨.ok 0, .ok (some 5), fun _ => some 7⟩ : InitEnv).resolveNameService
        = .ok (some o) ∧
      (⟨some 0, some 7⟩ : OrbState).rootContext
        = (⟨.ok 0, .ok (some 5), fun _ => some 7⟩ : InitEnv).narrowNamingContext o :=
  initOrb_true_characterization ⟨.ok 0, .ok (some 5), fun _ => some 7⟩
    ⟨none, none⟩ ⟨some 0, some 7⟩ rfl

/-- C5: when the orb member is already initialized, a further InitOrb call,
with any environment (any arguments), returns false and leaves the whole
state exactly as it was. -/
theorem initOrb_second_call_noop (env : InitEnv) (s : OrbState)
    (h : s.orb.isSome = true) :
    InitOrb env s = (.ok false, s) := by
  simp [InitOrb, h]

/-- C5 witness: a second InitOrb on an initialized state is a no-op
returning false. -/
theorem initOrb_second_call_noop_witness :
    InitOrb ⟨.ok 1, .ok (some 2), fun x => some x⟩ ⟨some 0, some 3⟩
      = (.ok false, ⟨some 0, some 3⟩) :=
  initOrb_second_call_noop _ _ rfl

/-- C6: knownTasks returns the empty list both when resolving ControlTasks
raises the registry's NotFound condition (absorbed by the catch clause) and
when the sub-context exists, narrows, and holds zero bindings (the iterator
yields no page). -/
theorem knownTasks_empty_cases (env : ListEnv) (r : Nat) :
    (env.resolveControlTasks r = .error .notFound → knownTasks env (some r) = .ok []) ∧
    (∀ o c, env.resolveControlTasks r = .ok (some o) →
      env.narrowNamingContext o = some c → env.pages = [] →
      knownTasks env (some r) = .ok []) := by
  constructor
  · intro h
    simp [knownTasks, h]
  · intro o c h1 h2 h3
    simp [knownTasks, h1, h2, h3, bindingLoop]

/-- C6 witness: both empty cases at concrete environments. -/
theorem knownTasks_empty_cases_witness :
    knownTasks ⟨fun _ => .error .notFound, fun _ => none, []⟩ (some 0) = .ok [] ∧
    knownTasks ⟨fun _ => .ok (some 1), fun _ => some 2, []⟩ (some 0) = .ok [] :=
  ⟨(knownTasks_empty_cases ⟨fun _ => .error .notFound, fun _ => none, []⟩ 0).1 rfl,
   (knownTasks_empty_cases ⟨fun _ => .ok (some 1), fun _ => some 2, []⟩ 0).2 1 2 rfl rfl rfl⟩

/-- C7: assuming a remote getName that, when it succeeds, reports the
object's registered identity, every normal return of findByName went
through resolve and a successful narrowing to the returned handle, and
getName succeeded on that handle before return, reporting the registered
identity of the object bound under the requested name. -/
theorem findByName_verified_handle (env : FindEnv) (r : Nat) (name : String) (m : Nat)
    (hid : ∀ h nm, env.getName h = .ok nm → nm = env.identity h)
    (hret : findByName env (some r) name = .ok (some m)) :
    ∃ o, env.resolveTask r name = .ok (some o) ∧ env.narrowControlTask o = some m ∧
      env.getName m = .ok (env.identity m) := by
  unfold findByName at hret
  split at hret
  · next hbody =>
    cases hret
    unfold findTryBody at hbody
    split at hbody
    · simp at hbody
    · next r2 heq2 =>
      injection heq2 with h2
      subst h2
      split at hbody
      · simp at hbody
      · next taskObj heq =>
        split at hbody
        · simp at hbody
        · next mtask hb =>
          split at hbody
          · simp at hbody
          · next nm hg =>
            cases hbody
            cases taskObj with
            | none => simp at hb
            | some o =>
              simp at hb
              exact ⟨o, heq, hb, by rw [hg, hid m nm hg]⟩
  · simp at hret
  · simp at hret

/-- C7 witness: a concrete successful lookup whose getName reports the
registered identity. -/
theorem findByName_verified_handle_witness :
    ∃ o, (⟨fun _ _ => .ok (some 3), fun _ => some 4, fun _ => .ok "alpha",
        fun _ => "alpha"⟩ : FindEnv).resolveTask 0 "alpha" = .ok (some o) ∧
      (⟨fun _ _ => .ok (some 3), fun _ => some 4, fun _ => .ok "alpha",
        fun _ => "alpha"⟩ : FindEnv).narrowControlTask o = some 4 ∧
      (⟨fun _ _ => .ok (some 3), fun _ => some 4, fun _ => .ok "alpha",
        fun _ => "alpha"⟩ : FindEnv).getName 4
        = .ok ((⟨fun _ _ => .ok (some 3), fun _ => some 4, fun _ => .ok "alpha",
            fun _ => "alpha"⟩ : FindEnv).identity 4) :=
  findByName_verified_handle
    ⟨fun _ _ => .ok (some 3), fun _ => some 4, fun _ => .ok "alpha", fun _ => "alpha"⟩
    0 "alpha" 4 (fun h nm e => (Except.ok.inj e).symm) rfl

/-- C8: a fault of the try block that is neither a CORBA exception nor the
IllegalServer being constructed is re-raised by findByName unchanged, never
converted into IllegalServer. -/
theorem findByName_other_fault_rethrown (env : FindEnv) (root : Option Nat)
    (name : String) (t : String)
    (h : findTryBody env root name = .error (.other t)) :
    findByName env root name = .error (.other t) := by
  simp [findByName, h]

/-- C8 witness: an unclassified fault raised while resolving propagates
out of findByName unchanged. -/
theorem findByName_other_fault_rethrown_witness :
    findByName ⟨fun _ _ => .error (.other "bad_alloc"), fun _ => none, fun _ => .ok "",
      fun _ => ""⟩ (some 0) "x" = .error (.other "bad_alloc") :=
  findByName_other_fault_rethrown _ (some 0) "x" "bad_alloc" rfl

/-- C9: DestroyOrb returns normally for every environment and every state,
including states left by a failed or absent InitOrb (where a destroy call
through a nil reference raises INV_OBJREF): every CORBA exception of the
try block is caught and swallowed, and the state is not modified. -/
theorem destroyOrb_never_throws (env : DestroyEnv) (s : OrbState) :
    DestroyOrb env s = (.ok (), s) := by
  unfold DestroyOrb
  cases destroyBody env s <;> rfl

/-- C10: when the ORB starts but the NameService resolution raises a CORBA
exception, InitOrb returns false with the orb member left assigned, and
from then on every InitOrb call, with any environment, returns false
immediately without changing state. -/
theorem initOrb_failed_init_sticky (env : InitEnv) (s : OrbState) (k : Nat)
    (e : CorbaExc) (hs : s.orb = none) (hoi : env.orbInit = .ok k)
    (hrs : env.resolveNameService = .error e) :
    InitOrb env s = (.ok false, ⟨some k, s.rootContext⟩) ∧
    ∀ env2 : InitEnv, InitOrb env2 ⟨some k, s.rootContext⟩
      = (.ok false, ⟨some k, s.rootContext⟩) := by
  constructor
  · simp [InitOrb, hs, hoi, hrs]
  · intro env2
    simp [InitOrb]

/-- C10 witness: a concrete failed initialization leaves the orb assigned
and returns false. -/
theorem initOrb_failed_init_sticky_witness :
    InitOrb ⟨.ok 0, .error (.system "InvalidName"), fun _ => none⟩ ⟨none, none⟩
      = (.ok false, ⟨some 0, none⟩) :=
  (initOrb_failed_init_sticky ⟨.ok 0, .error (.system "InvalidName"), fun _ => none⟩
    ⟨none, none⟩ 0 (.system "InvalidName") rfl rfl rfl).1

end CorbaAccess

